import Mathlib

/-
  Shallow embedding of src/components/V4L2EncodeInterface.cpp.

  The configuration-parameter setters of the V4L2 encoder interface are
  translated into pure Lean functions.  Enumerations of the Codec2
  framework (C2Config.h, an external collaborator of this repository) are
  embedded keeping their numeric order: profiles are plain naturals with
  the framework's base values (AVC profiles start at 0x5000, VP9 at
  0x7000, VP8 at 0x9000), AVC levels are a finite inductive whose toNat
  follows the enum order, and LEVEL_UNUSED (the sentinel of the static
  lowestConfigLevel variable) is represented by Option.none.
  Floating-point fields (frame rate, intra-refresh period) are embedded
  as exact rationals; every quantity appearing in the claims is small
  enough that the C++ float/double arithmetic is exact on it.
-/

namespace V4L2

/-- Result values of the Codec2 framework used by V4L2EncodeInterface:
C2R::Ok / C2SettingResultBuilder::BadValue for setters, and the
mInitStatus values of Initialize. -/
inductive C2Status where
  | C2_OK
  | C2_BAD_VALUE
  | C2_CORRUPTED
deriving DecidableEq, Repr

/-- The AVC levels of C2Config::level_t, in the order of the framework
enum (consecutive values starting at the AVC base). -/
inductive AvcLevel where
  | LEVEL_AVC_1
  | LEVEL_AVC_1B
  | LEVEL_AVC_1_1
  | LEVEL_AVC_1_2
  | LEVEL_AVC_1_3
  | LEVEL_AVC_2
  | LEVEL_AVC_2_1
  | LEVEL_AVC_2_2
  | LEVEL_AVC_3
  | LEVEL_AVC_3_1
  | LEVEL_AVC_3_2
  | LEVEL_AVC_4
  | LEVEL_AVC_4_1
  | LEVEL_AVC_4_2
  | LEVEL_AVC_5
  | LEVEL_AVC_5_1
  | LEVEL_AVC_5_2
deriving DecidableEq, Repr

/-- Position of an AVC level inside the C2Config::level_t enum, relative
to the AVC base; the C++ comparisons on level_t values reduce to
comparisons of these ordinals. -/
def AvcLevel.toNat : AvcLevel → Nat
  | .LEVEL_AVC_1 => 0
  | .LEVEL_AVC_1B => 1
  | .LEVEL_AVC_1_1 => 2
  | .LEVEL_AVC_1_2 => 3
  | .LEVEL_AVC_1_3 => 4
  | .LEVEL_AVC_2 => 5
  | .LEVEL_AVC_2_1 => 6
  | .LEVEL_AVC_2_2 => 7
  | .LEVEL_AVC_3 => 8
  | .LEVEL_AVC_3_1 => 9
  | .LEVEL_AVC_3_2 => 10
  | .LEVEL_AVC_4 => 11
  | .LEVEL_AVC_4_1 => 12
  | .LEVEL_AVC_4_2 => 13
  | .LEVEL_AVC_5 => 14
  | .LEVEL_AVC_5_1 => 15
  | .LEVEL_AVC_5_2 => 16

/-- C2Config::profile_t values (C2Config.h).  AVC profiles occupy
consecutive values from the AVC base 0x5000. -/
def PROFILE_AVC_BASELINE : Nat := 0x5000
def PROFILE_AVC_HIGH : Nat := 0x5004
def PROFILE_AVC_HIGH_10 : Nat := 0x5007
def PROFILE_AVC_HIGH_422 : Nat := 0x5009
def PROFILE_AVC_ENHANCED_MULTIVIEW_DEPTH_HIGH : Nat := 0x5012
def PROFILE_VP9_0 : Nat := 0x7000
def PROFILE_VP9_3 : Nat := 0x7003
def PROFILE_VP8_0 : Nat := 0x9000
def PROFILE_VP8_3 : Nat := 0x9003

/-- The codecs recognized by getCodecFromComponentName (VideoTypes.h). -/
inductive VideoCodec where
  | H264
  | VP8
  | VP9
deriving DecidableEq, Repr

/-- IsValidProfileForCodec (lines 55-67): whether a profile value lies in
the codec's valid range of the C2Config profile enum. -/
def IsValidProfileForCodec (codec : VideoCodec) (profile : Nat) : Bool :=
  match codec with
  | .H264 =>
      decide (PROFILE_AVC_BASELINE ≤ profile) &&
      decide (profile ≤ PROFILE_AVC_ENHANCED_MULTIVIEW_DEPTH_HIGH)
  | .VP8 => decide (PROFILE_VP8_0 ≤ profile) && decide (profile ≤ PROFILE_VP8_3)
  | .VP9 => decide (PROFILE_VP9_0 ≤ profile) && decide (profile ≤ PROFILE_VP9_3)

/-- One row of the H264 level-limit table (struct LevelLimits, lines
94-99).  maxMBPS is stored as float in the source; every table entry is
an integer exactly representable in float, so Nat is faithful. -/
structure LevelLimits where
  level : AvcLevel
  maxMBPS : Nat
  maxFS : Nat
  maxBR : Nat
deriving DecidableEq, Repr

/-- The static table kLimits (lines 100-118), Table A-1 of the H.264
specification. -/
def kLimits : List LevelLimits :=
  [⟨.LEVEL_AVC_1, 1485, 99, 64000⟩,
   ⟨.LEVEL_AVC_1B, 1485, 99, 128000⟩,
   ⟨.LEVEL_AVC_1_1, 3000, 396, 192000⟩,
   ⟨.LEVEL_AVC_1_2, 6000, 396, 384000⟩,
   ⟨.LEVEL_AVC_1_3, 11880, 396, 768000⟩,
   ⟨.LEVEL_AVC_2, 11880, 396, 2000000⟩,
   ⟨.LEVEL_AVC_2_1, 19800, 792, 4000000⟩,
   ⟨.LEVEL_AVC_2_2, 20250, 1620, 4000000⟩,
   ⟨.LEVEL_AVC_3, 40500, 1620, 10000000⟩,
   ⟨.LEVEL_AVC_3_1, 108000, 3600, 14000000⟩,
   ⟨.LEVEL_AVC_3_2, 216000, 5120, 20000000⟩,
   ⟨.LEVEL_AVC_4, 245760, 8192, 20000000⟩,
   ⟨.LEVEL_AVC_4_1, 245760, 8192, 50000000⟩,
   ⟨.LEVEL_AVC_4_2, 522240, 8704, 50000000⟩,
   ⟨.LEVEL_AVC_5, 589824, 22080, 135000000⟩,
   ⟨.LEVEL_AVC_5_1, 983040, 36864, 240000000⟩,
   ⟨.LEVEL_AVC_5_2, 2073600, 36864, 240000000⟩]

/-- Lookup of the kLimits row of a given level (the table has exactly
one row per AVC level, in enum order). -/
def limitsOf : AvcLevel → LevelLimits
  | .LEVEL_AVC_1 => ⟨.LEVEL_AVC_1, 1485, 99, 64000⟩
  | .LEVEL_AVC_1B => ⟨.LEVEL_AVC_1B, 1485, 99, 128000⟩
  | .LEVEL_AVC_1_1 => ⟨.LEVEL_AVC_1_1, 3000, 396, 192000⟩
  | .LEVEL_AVC_1_2 => ⟨.LEVEL_AVC_1_2, 6000, 396, 384000⟩
  | .LEVEL_AVC_1_3 => ⟨.LEVEL_AVC_1_3, 11880, 396, 768000⟩
  | .LEVEL_AVC_2 => ⟨.LEVEL_AVC_2, 11880, 396, 2000000⟩
  | .LEVEL_AVC_2_1 => ⟨.LEVEL_AVC_2_1, 19800, 792, 4000000⟩
  | .LEVEL_AVC_2_2 => ⟨.LEVEL_AVC_2_2, 20250, 1620, 4000000⟩
  | .LEVEL_AVC_3 => ⟨.LEVEL_AVC_3, 40500, 1620, 10000000⟩
  | .LEVEL_AVC_3_1 => ⟨.LEVEL_AVC_3_1, 108000, 3600, 14000000⟩
  | .LEVEL_AVC_3_2 => ⟨.LEVEL_AVC_3_2, 216000, 5120, 20000000⟩
  | .LEVEL_AVC_4 => ⟨.LEVEL_AVC_4, 245760, 8192, 20000000⟩
  | .LEVEL_AVC_4_1 => ⟨.LEVEL_AVC_4_1, 245760, 8192, 50000000⟩
  | .LEVEL_AVC_4_2 => ⟨.LEVEL_AVC_4_2, 522240, 8704, 50000000⟩
  | .LEVEL_AVC_5 => ⟨.LEVEL_AVC_5, 589824, 22080, 135000000⟩
  | .LEVEL_AVC_5_1 => ⟨.LEVEL_AVC_5_1, 983040, 36864, 240000000⟩
  | .LEVEL_AVC_5_2 => ⟨.LEVEL_AVC_5_2, 2073600, 36864, 240000000⟩

/-- Target frame size in 16x16 blocks (line 120-121):
targetFS = ((width + 15) / 16) * ((height + 15) / 16). -/
def targetFS (width height : Nat) : Nat :=
  ((width + 15) / 16) * ((height + 15) / 16)

/-- The profile-dependent bitrate-limit adjustment applied to a table
row's maxBR (lines 143-150).  maxBR * 5.0 / 4.0 is computed in double
and truncated back to uint32; on the table's values this equals Nat
floor division by 4 after multiplying by 5. -/
def adjustedMaxBR (profile : Nat) (maxBR : Nat) : Nat :=
  if PROFILE_AVC_HIGH_422 ≤ profile then maxBR * 4
  else if PROFILE_AVC_HIGH_10 ≤ profile then maxBR * 3
  else if PROFILE_AVC_HIGH ≤ profile then maxBR * 5 / 4
  else maxBR

/-- The feasibility check of line 152 for one table row: targetFS ≤
maxFS, targetMBPS ≤ maxMBPS and bitrate ≤ adjusted maxBR, where
targetMBPS = targetFS * frameRate (line 122).  The float comparison
targetFS * frameRate ≤ maxMBPS is embedded exactly over the rational
frame rate by cross multiplication with its positive denominator;
feasibleAt_mbps_iff below shows this is the rational inequality. -/
def feasibleAt (fs : Nat) (frameRate : ℚ) (bitrate : Nat) (profile : Nat)
    (limit : LevelLimits) : Bool :=
  decide (fs ≤ limit.maxFS) &&
    decide ((fs : Int) * frameRate.num ≤
      (limit.maxMBPS : Int) * (frameRate.den : Int)) &&
    decide (bitrate ≤ adjustedMaxBR profile limit.maxBR)

/-- Feasibility of a table row for a configuration given as width,
height, frame rate, bitrate and profile. -/
def h264Feasibility (width height : Nat) (frameRate : ℚ) (bitrate : Nat)
    (profile : Nat) (limit : LevelLimits) : Bool :=
  feasibleAt (targetFS width height) frameRate bitrate profile limit

/-- The profile-substitution step shared by H264ProfileLevelSetter
(lines 81-91) and VP9ProfileLevelSetter (lines 195-206): keep the
requested profile when it is supported and not below the minimal
default; otherwise substitute the default when supported, else fail. -/
def profileStep (supProf : Nat → Bool) (minProfile : Nat) (profile : Nat) :
    Option Nat :=
  if !supProf profile || decide (profile < minProfile) then
    if supProf minProfile then some minProfile else none
  else some profile

/-- The level-scan loop of H264ProfileLevelSetter (lines 133-183),
recursing over the remaining kLimits rows.  cur is info.v.level (left
unchanged until the final update), needs is the needsUpdate flag, mem
is the static lowestConfigLevel (none = LEVEL_UNUSED).  Returns the
setter result, the final level and the final lowestConfigLevel. -/
def scanLevels (sup : AvcLevel → Bool) (feas : LevelLimits → Bool)
    (cur : AvcLevel) :
    Bool → Option AvcLevel → List LevelLimits →
      C2Status × AvcLevel × Option AvcLevel
  | _, mem, [] => (C2Status.C2_BAD_VALUE, cur, mem)
  | needs, mem, limit :: rest =>
      if !sup limit.level then
        scanLevels sup feas cur needs mem rest
      else if feas limit then
        if needs then (C2Status.C2_OK, limit.level, some cur)
        else (C2Status.C2_OK, cur, mem)
      else
        scanLevels sup feas cur
          (needs || decide (cur.toNat ≤ limit.level.toNat)) mem rest

/-- The lowestConfigLevel seeding of lines 126-128: when the remembered
level is not LEVEL_UNUSED and is strictly lower than the proposed
level, override the proposed level with it. -/
def seedLevel (level : AvcLevel) : Option AvcLevel → AvcLevel
  | some m => if m.toNat < level.toNat then m else level
  | none => level

/-- V4L2EncodeInterface::H264ProfileLevelSetter (lines 72-186) as a pure
function.  supProf and supLevel are the supportsAtAll queries of the
profile and level fields; mem is the static lowestConfigLevel.
Returns (setter result, profile, level, new lowestConfigLevel). -/
def H264ProfileLevelSetter (supProf : Nat → Bool) (supLevel : AvcLevel → Bool)
    (width height : Nat) (frameRate : ℚ) (bitrate : Nat)
    (profile : Nat) (level : AvcLevel) (mem : Option AvcLevel) :
    C2Status × Nat × AvcLevel × Option AvcLevel :=
  match profileStep supProf PROFILE_AVC_BASELINE profile with
  | none => (C2Status.C2_BAD_VALUE, profile, level, mem)
  | some prof =>
      let level1 := seedLevel level mem
      let scanned := scanLevels supLevel
        (h264Feasibility width height frameRate bitrate prof) level1
        (!supLevel level1) mem kLimits
      (scanned.1, prof, scanned.2.1, scanned.2.2)

/-- V4L2EncodeInterface::VP9ProfileLevelSetter (lines 188-209): only the
profile-substitution step, no level feasibility check.  Returns the
setter result and the final profile. -/
def VP9ProfileLevelSetter (supProf : Nat → Bool) (profile : Nat) :
    C2Status × Nat :=
  match profileStep supProf PROFILE_VP9_0 profile with
  | none => (C2Status.C2_BAD_VALUE, profile)
  | some prof => (C2Status.C2_OK, prof)

/-- The first kLimits row, in increasing table order, that is supported
and feasible: the minimal feasible supported level. -/
def firstFeasibleLevel (sup : AvcLevel → Bool) (feas : LevelLimits → Bool) :
    List LevelLimits → Option AvcLevel
  | [] => none
  | limit :: rest =>
      if sup limit.level && feas limit then some limit.level
      else firstFeasibleLevel sup feas rest

/-- The supported-level set of the H264 profile-level field as declared
in Initialize (lines 335-342): every AVC level except LEVEL_AVC_5_2. -/
def defaultSupportedLevels (l : AvcLevel) : Bool :=
  decide (l ≠ AvcLevel.LEVEL_AVC_5_2)

/-- lowestConfigLevel (line 77) is a function-local static variable:
its storage duration is the whole process, its initial value
LEVEL_UNUSED is established once at process start. -/
def initialLowestConfigLevel : Option AvcLevel := none

/-- Constructing a V4L2EncodeInterface (constructor, lines 234-242, and
Initialize, lines 244-452) never touches the static lowestConfigLevel:
the memory an instance's resolutions see is whatever the process-wide
static already holds. -/
def InitializeMemory (mem : Option AvcLevel) : Option AvcLevel :=
  mem

/-- The intra-refresh modes appearing in the interface (the field's
allowed values, lines 408-410). -/
inductive IntraRefreshMode where
  | INTRA_REFRESH_DISABLED
  | INTRA_REFRESH_ARBITRARY
deriving DecidableEq, Repr

/-- V4L2EncodeInterface::IntraRefreshPeriodSetter (lines 221-232).  The
period field is a float in the source, embedded as an exact rational.
The requested mode is ignored by the source.  Returns the setter
result and the final (mode, period). -/
def IntraRefreshPeriodSetter (mode : IntraRefreshMode) (period : ℚ) :
    C2Status × IntraRefreshMode × ℚ :=
  if period < 1 then
    (C2Status.C2_OK, IntraRefreshMode.INTRA_REFRESH_DISABLED, 0)
  else (C2Status.C2_OK, IntraRefreshMode.INTRA_REFRESH_ARBITRARY, period)

/-- INT64_MAX, the sentinel for an infinite key-frame period. -/
def INT64_MAX : Int := 9223372036854775807

/-- UINT32_MAX, the clamp ceiling of getKeyFramePeriod. -/
def UINT32_MAX : Nat := 4294967295

/-- V4L2EncodeInterface::getKeyFramePeriod (lines 454-460).  periodUs is
the stored int64 key-frame period, frameRate the stored float frame
rate (embedded exactly as a rational); round is round-to-nearest with
ties away from zero, which on the non-negative values reaching it
agrees with Mathlib's round. -/
def getKeyFramePeriod (periodUs : Int) (frameRate : ℚ) : Nat :=
  if periodUs < 0 || periodUs = INT64_MAX then 0
  else
    Int.toNat (max (min (round ((periodUs : ℚ) / 1000000 * frameRate))
      (UINT32_MAX : Int)) 1)

/-- Capability entry of V4L2Device::getSupportedEncodeProfiles: a
profile with its maximum supported resolution. -/
structure SupportedProfile where
  profile : Nat
  maxWidth : Nat
  maxHeight : Nat
deriving DecidableEq, Repr

/-- The mInitStatus produced by V4L2EncodeInterface::Initialize (lines
244-452): C2_CORRUPTED when V4L2Device::create fails (lines 246-250),
C2_BAD_VALUE when the component name maps to no codec (lines 252-257)
or when no queried profile is valid for the codec (lines 266-281),
and C2_OK at the end of the success path (line 451). -/
def InitializeStatus (deviceOk : Bool) (codec : Option VideoCodec)
    (profiles : List SupportedProfile) : C2Status :=
  if !deviceOk then C2Status.C2_CORRUPTED
  else
    match codec with
    | none => C2Status.C2_BAD_VALUE
    | some c =>
        if (profiles.filter (fun sp => IsValidProfileForCodec c sp.profile)).isEmpty
        then C2Status.C2_BAD_VALUE
        else C2Status.C2_OK

/-- The three failed-initialization causes named by the specification. -/
inductive InitFailureCause where
  | deviceUnavailable
  | invalidCodec
  | noSupportedProfiles
deriving DecidableEq, Repr

/-- Which failure cause (if any) a given Initialize run hits, following
the order of the checks in the source. -/
def initFailureCause (deviceOk : Bool) (codec : Option VideoCodec)
    (profiles : List SupportedProfile) : Option InitFailureCause :=
  if !deviceOk then some InitFailureCause.deviceUnavailable
  else
    match codec with
    | none => some InitFailureCause.invalidCodec
    | some c =>
        if (profiles.filter (fun sp => IsValidProfileForCodec c sp.profile)).isEmpty
        then some InitFailureCause.noSupportedProfiles
        else none

/-- A platform profile set supporting exactly AVC baseline, used for
concrete runs of the H264 setter. -/
def supBaseline : Nat → Bool := fun q => decide (q = PROFILE_AVC_BASELINE)

/-- A platform profile set supporting exactly VP9 profile 0, used for
concrete runs of the VP9 setter. -/
def supVp9Zero : Nat → Bool := fun q => decide (q = PROFILE_VP9_0)

/-- Columnwise comparison of two level-limit rows: every limit of the
first row is at most the corresponding limit of the second. -/
abbrev colLE (a b : LevelLimits) : Prop :=
  a.maxMBPS ≤ b.maxMBPS ∧ a.maxFS ≤ b.maxFS ∧ a.maxBR ≤ b.maxBR

theorem limitsOf_level (l : AvcLevel) : (limitsOf l).level = l := by
  cases l <;> rfl

theorem limitsOf_mem (l : AvcLevel) : limitsOf l ∈ kLimits := by
  cases l <;> simp [limitsOf, kLimits]

theorem adjustedMaxBR_mono (p : Nat) {m1 m2 : Nat} (h : m1 ≤ m2) :
    adjustedMaxBR p m1 ≤ adjustedMaxBR p m2 := by
  unfold adjustedMaxBR
  split_ifs with h1 h2 h3
  · exact Nat.mul_le_mul_right 4 h
  · exact Nat.mul_le_mul_right 3 h
  · exact Nat.div_le_div_right (Nat.mul_le_mul_right 5 h)
  · exact h

theorem feasibleAt_mono (fs : Nat) (fr : ℚ) (br p : Nat) {a b : LevelLimits}
    (hab : colLE a b) (hfa : feasibleAt fs fr br p a = true) :
    feasibleAt fs fr br p b = true := by
  unfold feasibleAt at hfa ⊢
  simp only [Bool.and_eq_true, decide_eq_true_eq] at hfa ⊢
  obtain ⟨⟨h1, h2⟩, h3⟩ := hfa
  refine ⟨⟨le_trans h1 hab.2.1, le_trans h2 ?_⟩,
    le_trans h3 (adjustedMaxBR_mono p hab.2.2)⟩
  exact mul_le_mul_of_nonneg_right (by exact_mod_cast hab.1)
    (Int.natCast_nonneg fr.den)

/-- The cross-multiplied comparison inside feasibleAt is exactly the
rational inequality targetFS * frameRate ≤ maxMBPS of line 152. -/
theorem feasibleAt_mbps_iff (fs m : Nat) (q : ℚ) :
    ((fs : Int) * q.num ≤ (m : Int) * (q.den : Int)) ↔
      (fs : ℚ) * q ≤ (m : ℚ) := by
  have hden : (0 : ℚ) < (q.den : ℚ) := by exact_mod_cast q.den_pos
  rw [show ((fs : ℚ) * q ≤ (m : ℚ)) ↔
      ((fs : ℚ) * q * (q.den : ℚ) ≤ (m : ℚ) * (q.den : ℚ)) from
    (mul_le_mul_right hden).symm]
  rw [mul_assoc, Rat.mul_den_eq_num]
  constructor <;> intro hcmp <;> exact_mod_cast hcmp

/-- The final value of the static lowestConfigLevel after one scan is
either the value it had before the scan, or the level the scan started
from (written on the needsUpdate path, line 163). -/
theorem scanLevels_mem_out (sup : AvcLevel → Bool) (feas : LevelLimits → Bool)
    (cur : AvcLevel) :
    ∀ (rows : List LevelLimits) (needs : Bool) (mem : Option AvcLevel),
      (scanLevels sup feas cur needs mem rows).2.2 = mem ∨
        (scanLevels sup feas cur needs mem rows).2.2 = some cur := by
  intro rows
  induction rows with
  | nil => intro needs mem; left; rfl
  | cons limit rest ih =>
      intro needs mem
      by_cases hs : sup limit.level = true
      · by_cases hf : feas limit = true
        · cases needs <;> simp [scanLevels, hs, hf]
        · simpa [scanLevels, hs, hf] using ih _ mem
      · have hs' : sup limit.level = false := by
          cases hsv : sup limit.level
          · rfl
          · exact absurd hsv hs
        simpa [scanLevels, hs'] using ih needs mem

/-- The setter result and the final level of the scan do not depend on
the incoming value of the static lowestConfigLevel (the scan only
passes it through or overwrites it). -/
theorem scanLevels_indep_mem (sup : AvcLevel → Bool) (feas : LevelLimits → Bool)
    (cur : AvcLevel) :
    ∀ (rows : List LevelLimits) (needs : Bool) (mem mem' : Option AvcLevel),
      (scanLevels sup feas cur needs mem rows).1 =
          (scanLevels sup feas cur needs mem' rows).1 ∧
        (scanLevels sup feas cur needs mem rows).2.1 =
          (scanLevels sup feas cur needs mem' rows).2.1 := by
  intro rows
  induction rows with
  | nil => intro needs mem mem'; exact ⟨rfl, rfl⟩
  | cons limit rest ih =>
      intro needs mem mem'
      by_cases hs : sup limit.level = true
      · by_cases hf : feas limit = true
        · cases needs <;> simp [scanLevels, hs, hf]
        · simpa [scanLevels, hs, hf] using ih _ mem mem'
      · have hs' : sup limit.level = false := by
          cases hsv : sup limit.level
          · rfl
          · exact absurd hsv hs
        simpa [scanLevels, hs'] using ih needs mem mem'

/-- Seeding a proposal with the level produced by an earlier seeding of
the same proposal is stable (the seeded level is never above the
proposal, and seeding with a value not above the proposal returns that
value). -/
theorem seedLevel_restable (lvl : AvcLevel) (mem : Option AvcLevel) :
    seedLevel lvl (some (seedLevel lvl mem)) = seedLevel lvl mem := by
  cases mem with
  | none => simp [seedLevel]
  | some m =>
      by_cases h : m.toNat < lvl.toNat
      · simp [seedLevel, h]
      · simp [seedLevel, h]

/-- Invariant proof for the scan of lines 133-183: whenever the scan
returns Ok, the level it leaves behind has a feasible table row; the
case distinction follows the needsUpdate flag.  The hypotheses say the
rows are kLimits rows in nondecreasing column order, the feasibility
predicate is monotone along columns, and a false needsUpdate flag
means the current level is supported with its row still ahead. -/
theorem scanLevels_ok_feasible (sup : AvcLevel → Bool) (feas : LevelLimits → Bool)
    (hmono : ∀ a b, colLE a b → feas a = true → feas b = true) (cur : AvcLevel) :
    ∀ (rows : List LevelLimits) (needs : Bool) (mem : Option AvcLevel),
      (∀ r ∈ rows, limitsOf r.level = r) →
      List.Pairwise colLE rows →
      (needs = false → sup cur = true ∧ limitsOf cur ∈ rows) →
      (scanLevels sup feas cur needs mem rows).1 = C2Status.C2_OK →
      feas (limitsOf (scanLevels sup feas cur needs mem rows).2.1) = true := by
  intro rows
  induction rows with
  | nil =>
      intro needs mem _ _ _ hok
      simp [scanLevels] at hok
  | cons limit rest ih =>
      intro needs mem hrows hpw hinv hok
      by_cases hs : sup limit.level = true
      · by_cases hf : feas limit = true
        · cases hneeds : needs with
          | true =>
              have hres : scanLevels sup feas cur true mem (limit :: rest) =
                  (C2Status.C2_OK, limit.level, some cur) := by
                simp [scanLevels, hs, hf]
              rw [hres]
              simpa [hrows limit (List.mem_cons_self _ _)] using hf
          | false =>
              have hres : scanLevels sup feas cur false mem (limit :: rest) =
                  (C2Status.C2_OK, cur, mem) := by
                simp [scanLevels, hs, hf]
              rw [hres]
              obtain ⟨hsup, hmem⟩ := hinv hneeds
              rcases List.mem_cons.mp hmem with heq | hmemr
              · rw [heq]; exact hf
              · exact hmono limit (limitsOf cur)
                  (List.rel_of_pairwise_cons hpw hmemr) hf
        · have hf' : feas limit = false := by
            cases hfv : feas limit
            · rfl
            · exact absurd hfv hf
          have hstep : scanLevels sup feas cur needs mem (limit :: rest) =
              scanLevels sup feas cur
                (needs || decide (cur.toNat ≤ limit.level.toNat)) mem rest := by
            simp [scanLevels, hs, hf']
          rw [hstep] at hok ⊢
          refine ih _ mem (fun r hr => hrows r (List.mem_cons_of_mem _ hr))
            hpw.of_cons ?_ hok
          intro hn
          have hn1 : needs = false := by
            cases hnv : needs
            · rfl
            · rw [hnv] at hn; simp at hn
          have hn2 : ¬ cur.toNat ≤ limit.level.toNat := by
            rw [hn1] at hn
            simpa using hn
          obtain ⟨hsup, hmem⟩ := hinv hn1
          refine ⟨hsup, ?_⟩
          rcases List.mem_cons.mp hmem with heq | hmemr
          · exfalso
            have : limit.level = cur := by rw [← heq, limitsOf_level]
            exact hn2 (this ▸ le_refl _)
          · exact hmemr
      · have hs' : sup limit.level = false := by
          cases hsv : sup limit.level
          · rfl
          · exact absurd hsv hs
        have hstep : scanLevels sup feas cur needs mem (limit :: rest) =
            scanLevels sup feas cur needs mem rest := by
          simp [scanLevels, hs']
        rw [hstep] at hok ⊢
        refine ih needs mem (fun r hr => hrows r (List.mem_cons_of_mem _ hr))
          hpw.of_cons ?_ hok
        intro hn
        obtain ⟨hsup, hmem⟩ := hinv hn
        refine ⟨hsup, ?_⟩
        rcases List.mem_cons.mp hmem with heq | hmemr
        · exfalso
          have : limit.level = cur := by rw [← heq, limitsOf_level]
          rw [this] at hs'
          rw [hsup] at hs'
          exact Bool.true_eq_false.mp hs'
        · exact hmemr

/-- Every level returned by firstFeasibleLevel is the level of a
supported feasible row of the scanned list. -/
theorem firstFeasibleLevel_mem (sup : AvcLevel → Bool) (feas : LevelLimits → Bool) :
    ∀ (rows : List LevelLimits) (L : AvcLevel),
      firstFeasibleLevel sup feas rows = some L → ∃ r ∈ rows, r.level = L := by
  intro rows
  induction rows with
  | nil => intro L h; simp [firstFeasibleLevel] at h
  | cons limit rest ih =>
      intro L h
      by_cases hc : (sup limit.level && feas limit) = true
      · rw [firstFeasibleLevel, if_pos hc] at h
        exact ⟨limit, List.mem_cons_self _ _, (Option.some_inj.mp h)⟩
      · rw [firstFeasibleLevel, if_neg hc] at h
        obtain ⟨r, hr, hrl⟩ := ih L h
        exact ⟨r, List.mem_cons_of_mem _ hr, hrl⟩

/-- Weakening the feasibility predicate can only move the first
feasible row earlier in the list (levels are scanned in nondecreasing
level order). -/
theorem firstFeasibleLevel_mono (sup : AvcLevel → Bool)
    (feas1 feas2 : LevelLimits → Bool)
    (himp : ∀ r, feas2 r = true → feas1 r = true) :
    ∀ (rows : List LevelLimits),
      List.Pairwise (fun a b => a.level.toNat ≤ b.level.toNat) rows →
      ∀ L2, firstFeasibleLevel sup feas2 rows = some L2 →
        ∃ L1, firstFeasibleLevel sup feas1 rows = some L1 ∧
          L1.toNat ≤ L2.toNat := by
  intro rows
  induction rows with
  | nil => intro _ L2 h; simp [firstFeasibleLevel] at h
  | cons limit rest ih =>
      intro hpw L2 h2
      by_cases hc2 : (sup limit.level && feas2 limit) = true
      · rw [firstFeasibleLevel, if_pos hc2] at h2
        have hL2 : limit.level = L2 := Option.some_inj.mp h2
        have hc1 : (sup limit.level && feas1 limit) = true := by
          simp only [Bool.and_eq_true] at hc2 ⊢
          exact ⟨hc2.1, himp limit hc2.2⟩
        exact ⟨limit.level, by rw [firstFeasibleLevel, if_pos hc1], hL2 ▸ le_refl _⟩
      · rw [firstFeasibleLevel, if_neg hc2] at h2
        by_cases hc1 : (sup limit.level && feas1 limit) = true
        · refine ⟨limit.level, by rw [firstFeasibleLevel, if_pos hc1], ?_⟩
          obtain ⟨r, hr, hrl⟩ := firstFeasibleLevel_mem sup feas2 rest L2 h2
          exact hrl ▸ List.rel_of_pairwise_cons hpw hr
        · obtain ⟨L1, hL1, hle⟩ := ih hpw.of_cons L2 h2
          exact ⟨L1, by rw [firstFeasibleLevel, if_neg hc1]; exact hL1, hle⟩

/-- When every platform-supported profile is valid for the codec (the
guarantee Initialize establishes by filtering with
IsValidProfileForCodec), a profile outside the supported-and-valid set
is simply unsupported. -/
theorem unsupported_of_not_valid (sup : Nat → Bool) (c : VideoCodec)
    (hval : ∀ q, sup q = true → IsValidProfileForCodec c q = true) (p : Nat)
    (hno : ¬(sup p = true ∧ IsValidProfileForCodec c p = true)) :
    sup p = false := by
  cases hsp : sup p with
  | false => rfl
  | true => exact (hno ⟨hsp, hval p hsp⟩).elim

/-- C1.  Counterexample to "smaller level always wins among feasible
ones": in the concrete scenario (H264, 320x240, 30 fps, 64000 bps,
baseline profile, requested level 4.1, empty memory) the resolver
keeps the proposed level LEVEL_AVC_4_1 even though LEVEL_AVC_1_3, the
first table row satisfying 300 ≤ maxFS, 9000 ≤ maxMBPS and
64000 ≤ maxBR, is a lower supported feasible level. -/
theorem h264Setter_scenario1_cex :
    (H264ProfileLevelSetter supBaseline defaultSupportedLevels 320 240 30 64000
        PROFILE_AVC_BASELINE AvcLevel.LEVEL_AVC_4_1 none).2.2.1 =
      AvcLevel.LEVEL_AVC_4_1 ∧
    firstFeasibleLevel defaultSupportedLevels
        (h264Feasibility 320 240 30 64000 PROFILE_AVC_BASELINE) kLimits =
      some AvcLevel.LEVEL_AVC_1_3 ∧
    AvcLevel.LEVEL_AVC_4_1 ≠ AvcLevel.LEVEL_AVC_1_3 := by
  refine ⟨by decide, by decide, by decide⟩

/-- C1 (amended).  In the concrete scenario the resolver succeeds and
returns the proposed level LEVEL_AVC_4_1 unchanged with the memory
untouched: the minimal feasible level (the first table row satisfying
the limits, LEVEL_AVC_1_3) is substituted only when the proposed level
is unsupported or the scan passes the proposed level without finding a
feasible row, which does not happen here. -/
theorem h264Setter_scenario1_amended :
    H264ProfileLevelSetter supBaseline defaultSupportedLevels 320 240 30 64000
        PROFILE_AVC_BASELINE AvcLevel.LEVEL_AVC_4_1 none =
      (C2Status.C2_OK, PROFILE_AVC_BASELINE, AvcLevel.LEVEL_AVC_4_1, none) ∧
    firstFeasibleLevel defaultSupportedLevels
        (h264Feasibility 320 240 30 64000 PROFILE_AVC_BASELINE) kLimits =
      some AvcLevel.LEVEL_AVC_1_3 := by
  refine ⟨by decide, by decide⟩

/-- C2.  Whenever the H264 level resolver returns Ok, the level left in
the configuration is feasible for the current size, frame rate,
bitrate and (substituted) profile: its table row satisfies
targetFS ≤ maxFS, targetMBPS ≤ maxMBPS and bitrate ≤ adjusted maxBR,
including the case where the returned level is the proposed one and
the scan only checked a lower row. -/
theorem h264Setter_ok_level_feasible (supProf : Nat → Bool)
    (supLevel : AvcLevel → Bool) (w h : Nat) (fr : ℚ) (br p : Nat)
    (lvl : AvcLevel) (mem : Option AvcLevel)
    (hok : (H264ProfileLevelSetter supProf supLevel w h fr br p lvl mem).1 =
      C2Status.C2_OK) :
    feasibleAt (targetFS w h) fr br
      (H264ProfileLevelSetter supProf supLevel w h fr br p lvl mem).2.1
      (limitsOf
        (H264ProfileLevelSetter supProf supLevel w h fr br p lvl mem).2.2.1) =
      true := by
  cases hps : profileStep supProf PROFILE_AVC_BASELINE p with
  | none => rw [H264ProfileLevelSetter] at hok; simp [hps] at hok
  | some prof =>
      simp only [H264ProfileLevelSetter, hps] at hok ⊢
      refine scanLevels_ok_feasible supLevel (h264Feasibility w h fr br prof)
        (fun a b hab hfa => feasibleAt_mono (targetFS w h) fr br prof hab hfa)
        (seedLevel lvl mem) kLimits (!supLevel (seedLevel lvl mem)) mem
        (by decide) (by decide) ?_ hok
      intro hn
      exact ⟨by simpa using hn, limitsOf_mem _⟩

/-- C2 witness: the scenario-1 run returns Ok, and the theorem yields
feasibility of the returned level LEVEL_AVC_4_1. -/
theorem h264Setter_ok_level_feasible_witness :
    (H264ProfileLevelSetter supBaseline defaultSupportedLevels 320 240 30 64000
        PROFILE_AVC_BASELINE AvcLevel.LEVEL_AVC_4_1 none).1 = C2Status.C2_OK ∧
    feasibleAt (targetFS 320 240) 30 64000
      (H264ProfileLevelSetter supBaseline defaultSupportedLevels 320 240 30
        64000 PROFILE_AVC_BASELINE AvcLevel.LEVEL_AVC_4_1 none).2.1
      (limitsOf (H264ProfileLevelSetter supBaseline defaultSupportedLevels 320
        240 30 64000 PROFILE_AVC_BASELINE AvcLevel.LEVEL_AVC_4_1
        none).2.2.1) = true :=
  ⟨by decide,
   h264Setter_ok_level_feasible supBaseline defaultSupportedLevels 320 240 30
     64000 PROFILE_AVC_BASELINE AvcLevel.LEVEL_AVC_4_1 none (by decide)⟩

/-- C3.  Counterexample to per-instance scoping of ResolverMemory: the
static lowestConfigLevel written by a resolution on one interface
instance (proposing LEVEL_AVC_1 at 320x240, 30 fps, 64000 bps) is
still set after constructing a new instance, and a resolution on the
new instance observes it: with the inherited memory the second
instance resolves the same request to a different level than it would
from the empty memory a fresh instance is claimed to start with. -/
theorem lowestConfigLevel_cross_instance_cex :
    InitializeMemory
        (H264ProfileLevelSetter supBaseline defaultSupportedLevels 320 240 30
          64000 PROFILE_AVC_BASELINE AvcLevel.LEVEL_AVC_1 none).2.2.2 ≠
      none ∧
    (H264ProfileLevelSetter supBaseline defaultSupportedLevels 320 240 30 64000
        PROFILE_AVC_BASELINE AvcLevel.LEVEL_AVC_4_1
        (InitializeMemory
          (H264ProfileLevelSetter supBaseline defaultSupportedLevels 320 240 30
            64000 PROFILE_AVC_BASELINE AvcLevel.LEVEL_AVC_1
            none).2.2.2)).2.2.1 ≠
      (H264ProfileLevelSetter supBaseline defaultSupportedLevels 320 240 30
        64000 PROFILE_AVC_BASELINE AvcLevel.LEVEL_AVC_4_1 none).2.2.1 := by
  refine ⟨by decide, by decide⟩

/-- C3 (amended).  lowestConfigLevel is a function-local static with
process-wide lifetime: constructing an interface instance leaves it
unchanged, it is empty only at process start, and a resolution through
a freshly constructed instance observes the value written via another
instance — concretely, after a run that records LEVEL_AVC_1, a new
instance resolves the scenario-1 request to LEVEL_AVC_1_3 whereas from
empty memory it resolves to LEVEL_AVC_4_1. -/
theorem lowestConfigLevel_process_scoped :
    (∀ mem : Option AvcLevel, InitializeMemory mem = mem) ∧
    initialLowestConfigLevel = none ∧
    (H264ProfileLevelSetter supBaseline defaultSupportedLevels 320 240 30 64000
        PROFILE_AVC_BASELINE AvcLevel.LEVEL_AVC_1 none).2.2.2 =
      some AvcLevel.LEVEL_AVC_1 ∧
    (H264ProfileLevelSetter supBaseline defaultSupportedLevels 320 240 30 64000
        PROFILE_AVC_BASELINE AvcLevel.LEVEL_AVC_4_1
        (InitializeMemory (some AvcLevel.LEVEL_AVC_1))).2.2.1 =
      AvcLevel.LEVEL_AVC_1_3 ∧
    (H264ProfileLevelSetter supBaseline defaultSupportedLevels 320 240 30 64000
        PROFILE_AVC_BASELINE AvcLevel.LEVEL_AVC_4_1 none).2.2.1 =
      AvcLevel.LEVEL_AVC_4_1 :=
  ⟨fun _ => rfl, rfl, by decide, by decide, by decide⟩

/-- C4.  For fixed supported-level set, picture size, frame rate and
profile, the minimal feasible level is monotone in the bitrate: if a
feasible level exists at the larger bitrate then one exists at the
smaller bitrate and it is not higher. -/
theorem minFeasibleLevel_monotone_bitrate (sup : AvcLevel → Bool)
    (w h : Nat) (fr : ℚ) (p br1 br2 : Nat) (hbr : br1 ≤ br2) (L2 : AvcLevel)
    (h2 : firstFeasibleLevel sup (h264Feasibility w h fr br2 p) kLimits =
      some L2) :
    ∃ L1, firstFeasibleLevel sup (h264Feasibility w h fr br1 p) kLimits =
        some L1 ∧ L1.toNat ≤ L2.toNat := by
  refine firstFeasibleLevel_mono sup _ _ ?_ kLimits (by decide) L2 h2
  intro r hr
  unfold h264Feasibility feasibleAt at hr ⊢
  simp only [Bool.and_eq_true, decide_eq_true_eq] at hr ⊢
  exact ⟨hr.1, le_trans hbr hr.2⟩

/-- C4 witness: raising the bitrate from 64000 to 10000000 at 320x240,
30 fps, baseline moves the minimal feasible level from LEVEL_AVC_1_3
up to LEVEL_AVC_3. -/
theorem minFeasibleLevel_monotone_bitrate_witness :
    64000 ≤ 10000000 ∧
    firstFeasibleLevel defaultSupportedLevels
        (h264Feasibility 320 240 30 10000000 PROFILE_AVC_BASELINE) kLimits =
      some AvcLevel.LEVEL_AVC_3 ∧
    ∃ L1, firstFeasibleLevel defaultSupportedLevels
        (h264Feasibility 320 240 30 64000 PROFILE_AVC_BASELINE) kLimits =
        some L1 ∧ L1.toNat ≤ AvcLevel.toNat AvcLevel.LEVEL_AVC_3 :=
  ⟨by decide, by decide,
   minFeasibleLevel_monotone_bitrate defaultSupportedLevels 320 240 30
     PROFILE_AVC_BASELINE 64000 10000000 (by decide) AvcLevel.LEVEL_AVC_3
     (by decide)⟩

/-- C5.  Resolving twice with identical size, frame rate, bitrate,
profile and proposed level, the second run starting from the memory
left by the first, produces the same setter result, profile and level
as the first run. -/
theorem h264Setter_idempotent (supProf : Nat → Bool)
    (supLevel : AvcLevel → Bool) (w h : Nat) (fr : ℚ) (br p : Nat)
    (lvl : AvcLevel) (mem : Option AvcLevel) :
    (H264ProfileLevelSetter supProf supLevel w h fr br p lvl
        ((H264ProfileLevelSetter supProf supLevel w h fr br p lvl
          mem).2.2.2)).1 =
      (H264ProfileLevelSetter supProf supLevel w h fr br p lvl mem).1 ∧
    (H264ProfileLevelSetter supProf supLevel w h fr br p lvl
        ((H264ProfileLevelSetter supProf supLevel w h fr br p lvl
          mem).2.2.2)).2.1 =
      (H264ProfileLevelSetter supProf supLevel w h fr br p lvl mem).2.1 ∧
    (H264ProfileLevelSetter supProf supLevel w h fr br p lvl
        ((H264ProfileLevelSetter supProf supLevel w h fr br p lvl
          mem).2.2.2)).2.2.1 =
      (H264ProfileLevelSetter supProf supLevel w h fr br p lvl mem).2.2.1 := by
  cases hps : profileStep supProf PROFILE_AVC_BASELINE p with
  | none => simp [H264ProfileLevelSetter, hps]
  | some prof =>
      rcases scanLevels_mem_out supLevel (h264Feasibility w h fr br prof)
          (seedLevel lvl mem) kLimits (!supLevel (seedLevel lvl mem)) mem
        with h1 | h1
      · simp only [H264ProfileLevelSetter, hps]
        rw [h1]
        exact ⟨rfl, trivial, rfl⟩
      · simp only [H264ProfileLevelSetter, hps]
        rw [h1, seedLevel_restable]
        obtain ⟨hst, hlv⟩ := scanLevels_indep_mem supLevel
          (h264Feasibility w h fr br prof) (seedLevel lvl mem) kLimits
          (!supLevel (seedLevel lvl mem)) (some (seedLevel lvl mem)) mem
        exact ⟨hst, trivial, hlv⟩

/-- C6.  Profile substitution of the H264 and VP9 setters, under the
platform guarantee (established by Initialize's filter) that every
supported profile is valid for the codec: a supported in-range profile
is accepted unchanged; otherwise the codec's minimum default profile
(AVC baseline, VP9 profile 0) is substituted when supported; and when
neither is supported the setter fails with a bad-value result. -/
theorem profileSetters_substitution (supH supV : Nat → Bool)
    (hH : ∀ q, supH q = true → IsValidProfileForCodec VideoCodec.H264 q = true)
    (hV : ∀ q, supV q = true → IsValidProfileForCodec VideoCodec.VP9 q = true)
    (supLevel : AvcLevel → Bool) (w h : Nat) (fr : ℚ) (br : Nat)
    (p pv : Nat) (lvl : AvcLevel) (mem : Option AvcLevel) :
    ((supH p = true ∧ IsValidProfileForCodec VideoCodec.H264 p = true) →
      (H264ProfileLevelSetter supH supLevel w h fr br p lvl mem).2.1 = p) ∧
    (¬(supH p = true ∧ IsValidProfileForCodec VideoCodec.H264 p = true) →
      supH PROFILE_AVC_BASELINE = true →
      (H264ProfileLevelSetter supH supLevel w h fr br p lvl mem).2.1 =
        PROFILE_AVC_BASELINE) ∧
    (¬(supH p = true ∧ IsValidProfileForCodec VideoCodec.H264 p = true) →
      supH PROFILE_AVC_BASELINE = false →
      (H264ProfileLevelSetter supH supLevel w h fr br p lvl mem).1 =
        C2Status.C2_BAD_VALUE) ∧
    ((supV pv = true ∧ IsValidProfileForCodec VideoCodec.VP9 pv = true) →
      VP9ProfileLevelSetter supV pv = (C2Status.C2_OK, pv)) ∧
    (¬(supV pv = true ∧ IsValidProfileForCodec VideoCodec.VP9 pv = true) →
      supV PROFILE_VP9_0 = true →
      VP9ProfileLevelSetter supV pv = (C2Status.C2_OK, PROFILE_VP9_0)) ∧
    (¬(supV pv = true ∧ IsValidProfileForCodec VideoCodec.VP9 pv = true) →
      supV PROFILE_VP9_0 = false →
      (VP9ProfileLevelSetter supV pv).1 = C2Status.C2_BAD_VALUE) := by
  refine ⟨?_, ?_, ?_, ?_, ?_, ?_⟩
  · rintro ⟨hsp, hval⟩
    have hge : PROFILE_AVC_BASELINE ≤ p := by
      have hv := hval
      simp [IsValidProfileForCodec] at hv
      exact hv.1
    have hps : profileStep supH PROFILE_AVC_BASELINE p = some p := by
      simp [profileStep, hsp, Nat.not_lt.mpr hge]
    simp [H264ProfileLevelSetter, hps]
  · intro hno hmin
    have hc := unsupported_of_not_valid supH VideoCodec.H264 hH p hno
    simp [H264ProfileLevelSetter, profileStep, hc, hmin]
  · intro hno hmin
    have hc := unsupported_of_not_valid supH VideoCodec.H264 hH p hno
    simp [H264ProfileLevelSetter, profileStep, hc, hmin]
  · rintro ⟨hsp, hval⟩
    have hge : PROFILE_VP9_0 ≤ pv := by
      have hv := hval
      simp [IsValidProfileForCodec] at hv
      exact hv.1
    have hps : profileStep supV PROFILE_VP9_0 pv = some pv := by
      simp [profileStep, hsp, Nat.not_lt.mpr hge]
    simp [VP9ProfileLevelSetter, hps]
  · intro hno hmin
    have hc := unsupported_of_not_valid supV VideoCodec.VP9 hV pv hno
    simp [VP9ProfileLevelSetter, profileStep, hc, hmin]
  · intro hno hmin
    have hc := unsupported_of_not_valid supV VideoCodec.VP9 hV pv hno
    simp [VP9ProfileLevelSetter, profileStep, hc, hmin]

/-- C7.  Counterexample to "the reported status communicates which of
the three causes occurred": an unrecognized codec name and a
capability query with zero valid profiles are different failure
causes, yet Initialize reports the same status C2_BAD_VALUE for both,
so the status does not identify the cause. -/
theorem initStatus_conflates_causes :
    initFailureCause true none [⟨PROFILE_AVC_BASELINE, 1920, 1080⟩] =
      some InitFailureCause.invalidCodec ∧
    initFailureCause true (some VideoCodec.H264) [] =
      some InitFailureCause.noSupportedProfiles ∧
    InitializeStatus true none [⟨PROFILE_AVC_BASELINE, 1920, 1080⟩] =
      InitializeStatus true (some VideoCodec.H264) [] := by
  refine ⟨by decide, by decide, by decide⟩

/-- C7 (amended).  Initialize always ends in a well-defined status
determined by the failure cause: C2_CORRUPTED when device creation
fails, C2_BAD_VALUE for both an unrecognized codec name and an empty
valid-profile list (these two causes share a status and are not
distinguished), and C2_OK on every success path. -/
theorem initStatus_by_cause (deviceOk : Bool) (codec : Option VideoCodec)
    (profiles : List SupportedProfile) :
    InitializeStatus deviceOk codec profiles =
      (match initFailureCause deviceOk codec profiles with
       | none => C2Status.C2_OK
       | some InitFailureCause.deviceUnavailable => C2Status.C2_CORRUPTED
       | some InitFailureCause.invalidCodec => C2Status.C2_BAD_VALUE
       | some InitFailureCause.noSupportedProfiles =>
           C2Status.C2_BAD_VALUE) := by
  cases deviceOk with
  | false => simp [InitializeStatus, initFailureCause]
  | true =>
      cases codec with
      | none => simp [InitializeStatus, initFailureCause]
      | some c =>
          cases hE : (profiles.filter
              (fun sp => IsValidProfileForCodec c sp.profile)).isEmpty <;>
            simp [InitializeStatus, initFailureCause, hE]

/-- C8.  The intra-refresh period setter always succeeds; a requested
period below 1 forces mode disabled with period 0, any other period is
kept with the mode forced to arbitrary regardless of the requested
mode; in particular a requested period of 5 yields (arbitrary, 5). -/
theorem intraRefreshPeriodSetter_spec (mode : IntraRefreshMode) (period : ℚ) :
    (IntraRefreshPeriodSetter mode period).1 = C2Status.C2_OK ∧
    (period < 1 → IntraRefreshPeriodSetter mode period =
      (C2Status.C2_OK, IntraRefreshMode.INTRA_REFRESH_DISABLED, 0)) ∧
    (¬ period < 1 → IntraRefreshPeriodSetter mode period =
      (C2Status.C2_OK, IntraRefreshMode.INTRA_REFRESH_ARBITRARY, period)) ∧
    IntraRefreshPeriodSetter mode 5 =
      (C2Status.C2_OK, IntraRefreshMode.INTRA_REFRESH_ARBITRARY, 5) := by
  refine ⟨?_, ?_, ?_, ?_⟩
  · unfold IntraRefreshPeriodSetter
    split <;> rfl
  · intro hlt
    simp [IntraRefreshPeriodSetter, hlt]
  · intro hge
    simp [IntraRefreshPeriodSetter, hge]
  · have h5 : ¬ (5 : ℚ) < 1 := by norm_num
    simp [IntraRefreshPeriodSetter, h5]

/-- C8 witness: a requested period of 0 (below 1) is forced to
(disabled, 0), by the setter theorem at a concrete input. -/
theorem intraRefreshPeriodSetter_witness :
    (0 : ℚ) < 1 ∧
    IntraRefreshPeriodSetter IntraRefreshMode.INTRA_REFRESH_ARBITRARY 0 =
      (C2Status.C2_OK, IntraRefreshMode.INTRA_REFRESH_DISABLED, 0) :=
  ⟨zero_lt_one,
   (intraRefreshPeriodSetter_spec IntraRefreshMode.INTRA_REFRESH_ARBITRARY
     0).2.1 zero_lt_one⟩

/-- C9.  getKeyFramePeriod returns 0 for a negative or INT64_MAX stored
period; otherwise it returns round(periodUs / 1e6 * frameRate) clamped
into [1, UINT32_MAX]; in particular periodUs = -1 gives 0 and
periodUs = 1000000 at 30 fps gives 30. -/
theorem getKeyFramePeriod_spec (periodUs : Int) (fr : ℚ) :
    ((periodUs < 0 ∨ periodUs = INT64_MAX) →
      getKeyFramePeriod periodUs fr = 0) ∧
    (¬(periodUs < 0 ∨ periodUs = INT64_MAX) →
      getKeyFramePeriod periodUs fr =
        Int.toNat (min (max (round ((periodUs : ℚ) / 1000000 * fr)) 1)
          ((UINT32_MAX : Nat) : Int))) ∧
    getKeyFramePeriod (-1) fr = 0 ∧
    getKeyFramePeriod 1000000 (30 : ℚ) = 30 := by
  refine ⟨?_, ?_, ?_, ?_⟩
  · intro hzero
    unfold getKeyFramePeriod
    rw [if_pos]
    rcases hzero with hz | hz <;> simp [hz]
  · intro hnot
    push_neg at hnot
    unfold getKeyFramePeriod
    rw [if_neg (by simp [hnot.1, hnot.2])]
    generalize round ((periodUs : ℚ) / 1000000 * fr) = x
    simp only [UINT32_MAX]
    omega
  · simp [getKeyFramePeriod]
  · norm_num [getKeyFramePeriod, INT64_MAX, UINT32_MAX]
    rfl

/-- C9 witness: the stored period -1 is negative, and the theorem gives
a derived key-frame period of 0 at 30 fps. -/
theorem getKeyFramePeriod_witness :
    ((-1 : Int) < 0 ∨ (-1 : Int) = INT64_MAX) ∧
    getKeyFramePeriod (-1) (30 : ℚ) = 0 :=
  ⟨Or.inl (by decide), (getKeyFramePeriod_spec (-1) (30 : ℚ)).1
    (Or.inl (by decide))⟩

/-- C10.  The kLimits rows are in strictly increasing level order with
all three limit columns nondecreasing, and consequently, for any fixed
size, frame rate, bitrate and profile, feasibility at a row implies
feasibility at every later (higher-level) row. -/
theorem kLimits_ordered_and_monotone :
    List.Pairwise (fun a b => a.level.toNat < b.level.toNat ∧ colLE a b)
      kLimits ∧
    ∀ (w h : Nat) (fr : ℚ) (br p : Nat) (i j : Fin kLimits.length), i ≤ j →
      h264Feasibility w h fr br p (kLimits.get i) = true →
      h264Feasibility w h fr br p (kLimits.get j) = true := by
  refine ⟨by decide, ?_⟩
  intro w h fr br p i j hij hfi
  rcases lt_or_eq_of_le hij with hlt | heq
  · have hpw : List.Pairwise
        (fun a b => a.level.toNat < b.level.toNat ∧ colLE a b) kLimits := by
      decide
    exact feasibleAt_mono (targetFS w h) fr br p
      ((List.pairwise_iff_get.mp hpw) i j hlt).2 hfi
  · exact heq ▸ hfi

/-- C10 witness: at 320x240, 30 fps, 64000 bps, baseline, row 4
(LEVEL_AVC_1_3) is feasible and the theorem transfers feasibility to
the later row 12 (LEVEL_AVC_4_1). -/
theorem kLimits_ordered_and_monotone_witness :
    (⟨4, by decide⟩ : Fin kLimits.length) ≤ (⟨12, by decide⟩ : Fin kLimits.length) ∧
    h264Feasibility 320 240 30 64000 PROFILE_AVC_BASELINE
      (kLimits.get ⟨4, by decide⟩) = true ∧
    h264Feasibility 320 240 30 64000 PROFILE_AVC_BASELINE
      (kLimits.get ⟨12, by decide⟩) = true :=
  ⟨by decide, by decide,
   kLimits_ordered_and_monotone.2 320 240 30 64000 PROFILE_AVC_BASELINE
     ⟨4, by decide⟩ ⟨12, by decide⟩ (by decide) (by decide)⟩

/-- C6 witness: with baseline-only and VP9-profile-0-only supported
sets (both valid for their codec), a requested baseline profile is
accepted unchanged by the H264 setter and a requested VP9 profile 0 is
accepted by the VP9 setter, by the substitution theorem at concrete
inputs. -/
theorem profileSetters_substitution_witness :
    supBaseline PROFILE_AVC_BASELINE = true ∧
    IsValidProfileForCodec VideoCodec.H264 PROFILE_AVC_BASELINE = true ∧
    (H264ProfileLevelSetter supBaseline defaultSupportedLevels 320 240 30 64000
        PROFILE_AVC_BASELINE AvcLevel.LEVEL_AVC_4_1 none).2.1 =
      PROFILE_AVC_BASELINE ∧
    VP9ProfileLevelSetter supVp9Zero PROFILE_VP9_0 =
      (C2Status.C2_OK, PROFILE_VP9_0) := by
  have hH : ∀ q, supBaseline q = true →
      IsValidProfileForCodec VideoCodec.H264 q = true := by
    intro q hq
    simp [supBaseline] at hq
    subst hq
    decide
  have hV : ∀ q, supVp9Zero q = true →
      IsValidProfileForCodec VideoCodec.VP9 q = true := by
    intro q hq
    simp [supVp9Zero] at hq
    subst hq
    decide
  have happ := profileSetters_substitution supBaseline supVp9Zero hH hV
    defaultSupportedLevels 320 240 30 64000 PROFILE_AVC_BASELINE PROFILE_VP9_0
    AvcLevel.LEVEL_AVC_4_1 none
  exact ⟨by decide, by decide, happ.1 ⟨by decide, by decide⟩,
    happ.2.2.2.1 ⟨by decide, by decide⟩⟩

end V4L2
